import Mathlib

/-!
Verification of the `NovaGenerator` core of the Amazon Nova Canvas image
generator (`src/utils/canvas.py`): the task router `generate_image`, the
per-task request builders, the media normalizer
`_ensure_valid_image_format`, the synchronous result unwrapping, and the
asynchronous video-job polling loop of `generate_video`.

JSON values are embedded as the inductive `JVal`; Python `None` is
`JVal.null`, and Python dict insertion order is preserved as the order of
the association list in `JVal.obj`.  Remote calls (`invoke_model`,
`get_async_invoke`, S3 reads) and the PIL image library are external
effects: they enter the embedding as explicit function parameters, while
everything the repository itself computes is translated directly.
-/

namespace NovaCanvas

/-- A JSON value, as produced by the request builders and consumed by
`json.dumps`.  `null` embeds Python `None`; numeric literals of the source
(`6.5`, `0.7`) are carried as exact rationals since the code never computes
with them, only embeds them in the envelope. -/
inductive JVal where
  | null : JVal
  | str (s : String) : JVal
  | int (n : Int) : JVal
  | rat (q : ℚ) : JVal
  | arr (xs : List JVal) : JVal
  | obj (fields : List (String × JVal)) : JVal

/-- Python truthiness (`if x:`) for the value shapes that occur in the
source: `None`, strings, numbers, lists and dicts. -/
def truthy : JVal → Bool
  | .null => false
  | .str s => s != ""
  | .int n => n != 0
  | .rat q => q != 0
  | .arr xs => !xs.isEmpty
  | .obj fs => !fs.isEmpty

/-- The caller's parameter bag: a Python dict from parameter names to
values, embedded as an insertion-ordered association list. -/
abbrev Params := List (String × JVal)

/-- `params.get(k)`: first binding of `k`, if any. -/
def Params.get (p : Params) (k : String) : Option JVal :=
  (p.find? (fun kv => kv.1 == k)).map (fun kv => kv.2)

/-- `params.get(k, d)`: lookup with default. -/
def Params.getD (p : Params) (k : String) (d : JVal) : JVal :=
  (Params.get p k).getD d

/-- Field lookup inside a built JSON object (used to state what keys an
envelope does and does not contain). -/
def jlookup : JVal → String → Option JVal
  | .obj fs, k => (fs.find? (fun kv => kv.1 == k)).map (fun kv => kv.2)
  | _, _ => none

/-- Two-level field lookup: `jlookup2 v k1 k2` reads `v[k1][k2]`. -/
def jlookup2 (v : JVal) (k1 k2 : String) : Option JVal :=
  (jlookup v k1).bind (fun w => jlookup w k2)

/-- `NovaGenerator.text_image`: the request body built for a TEXT_IMAGE
task.  `norm` is the media normalizer `_ensure_valid_image_format`, applied
to the condition image only when that argument is truthy.  Field order
follows Python dict insertion order in the source. -/
def text_image_body (norm : JVal → JVal)
    (text negative_text : JVal) (num_images : JVal) (width height : JVal)
    (quality cfg_scale seed : JVal)
    (condition_image control_mode control_strength : JVal) : JVal :=
  let ttip0 : List (String × JVal) := [("text", text)]
  let ttip1 :=
    if truthy negative_text then ttip0 ++ [("negativeText", negative_text)] else ttip0
  let ttip2 :=
    if truthy condition_image then
      ttip1 ++ [("conditionImage", norm condition_image),
                ("controlMode", control_mode),
                ("controlStrength", control_strength)]
    else ttip1
  .obj [("taskType", .str "TEXT_IMAGE"),
        ("imageGenerationConfig", .obj
          [("width", width), ("height", height), ("numberOfImages", num_images),
           ("quality", quality), ("cfgScale", cfg_scale), ("seed", seed)]),
        ("textToImageParams", .obj ttip2)]

/-- `NovaGenerator.inpainting`: the request body for an INPAINTING task.
The base image always passes through the normalizer; the mask handling is
`if mask_image: ... elif mask_prompt: ...` as in the source — the image
mask wins when both are truthy, and no mask key is emitted when neither
is. -/
def inpainting_body (norm : JVal → JVal)
    (image text negative_text : JVal) (mask_image mask_prompt : JVal)
    (num_images quality cfg_scale seed : JVal) : JVal :=
  let image := norm image
  let ipp0 : List (String × JVal) := [("image", image), ("text", text)]
  let ipp1 :=
    if truthy negative_text then ipp0 ++ [("negativeText", negative_text)] else ipp0
  let ipp2 :=
    if truthy mask_image then ipp1 ++ [("maskImage", norm mask_image)]
    else if truthy mask_prompt then ipp1 ++ [("maskPrompt", mask_prompt)]
    else ipp1
  .obj [("taskType", .str "INPAINTING"),
        ("imageGenerationConfig", .obj
          [("numberOfImages", num_images), ("quality", quality),
           ("cfgScale", cfg_scale), ("seed", seed)]),
        ("inPaintingParams", .obj ipp2)]

/-- `NovaGenerator.outpainting`: the request body for an OUTPAINTING task.
Same `if mask_image: ... elif mask_prompt: ...` mask handling as
inpainting. -/
def outpainting_body (norm : JVal → JVal)
    (image text : JVal) (mask_image mask_prompt : JVal)
    (outpainting_mode : JVal) (num_images quality cfg_scale seed : JVal) : JVal :=
  let image := norm image
  let opp0 : List (String × JVal) :=
    [("image", image), ("text", text), ("outPaintingMode", outpainting_mode)]
  let opp1 :=
    if truthy mask_image then opp0 ++ [("maskImage", norm mask_image)]
    else if truthy mask_prompt then opp0 ++ [("maskPrompt", mask_prompt)]
    else opp0
  .obj [("taskType", .str "OUTPAINTING"),
        ("imageGenerationConfig", .obj
          [("numberOfImages", num_images), ("quality", quality),
           ("cfgScale", cfg_scale), ("seed", seed)]),
        ("outPaintingParams", .obj opp1)]

/-- `colors if isinstance(colors, list) else colors.split(',')` inside
`NovaGenerator.color_guided_generation` (other shapes would raise in
Python; no call site produces them, the router having already split
strings). -/
def colorsAsList : JVal → JVal
  | .arr xs => .arr xs
  | .str s => .arr ((s.splitOn ",").map .str)
  | v => v

/-- `NovaGenerator.color_guided_generation`: request body for a
COLOR_GUIDED_GENERATION task; the reference image is normalized and added
only when truthy. -/
def color_guided_generation_body (norm : JVal → JVal)
    (text : JVal) (colors : JVal) (width height : JVal)
    (reference_image : JVal) (num_images quality cfg_scale seed : JVal) : JVal :=
  let cggp0 : List (String × JVal) :=
    [("text", text), ("colors", colorsAsList colors)]
  let cggp1 :=
    if truthy reference_image then cggp0 ++ [("image", norm reference_image)] else cggp0
  .obj [("taskType", .str "COLOR_GUIDED_GENERATION"),
        ("imageGenerationConfig", .obj
          [("width", width), ("height", height), ("numberOfImages", num_images),
           ("quality", quality), ("cfgScale", cfg_scale), ("seed", seed)]),
        ("colorGuidedGenerationParams", .obj cggp1)]

/-- `NovaGenerator.background_removal`: request body for a
BACKGROUND_REMOVAL task.  The source deliberately embeds the image as
given, with no normalizer call and no `imageGenerationConfig` block. -/
def background_removal_body (image : JVal) : JVal :=
  .obj [("taskType", .str "BACKGROUND_REMOVAL"),
        ("backgroundRemovalParams", .obj [("image", image)])]

/-- The list comprehension
`[self._ensure_valid_image_format(img) for img in images]` in
`NovaGenerator.image_variation` (a non-list argument would raise in
Python; no call site produces one). -/
def normalizeEach (norm : JVal → JVal) : JVal → JVal
  | .arr xs => .arr (xs.map norm)
  | v => v

/-- `NovaGenerator.image_variation`: request body for an IMAGE_VARIATION
task; every input image passes through the normalizer. -/
def image_variation_body (norm : JVal → JVal)
    (images text : JVal) (num_images quality cfg_scale seed : JVal) : JVal :=
  .obj [("taskType", .str "IMAGE_VARIATION"),
        ("imageGenerationConfig", .obj
          [("numberOfImages", num_images), ("quality", quality),
           ("cfgScale", cfg_scale), ("seed", seed)]),
        ("imageVariationParams", .obj
          [("images", normalizeEach norm images), ("text", text)])]

/-- The only error the task router itself can raise: the
`ValueError(f"Unsupported task type: ...")` at the end of
`NovaGenerator.generate_image` (the spec's `UnsupportedTaskError`). -/
inductive GenError where
  | unsupportedTask (task_type : String) : GenError

/-- `NovaGenerator.generate_image`: the task router.  It extracts the
shared defaults `num_images=1`, `quality='standard'`, `cfg_scale=6.5`,
`seed=0` from the bag, then dispatches on `task_type`.  An `Except.ok
body` value means the routed builder ran and issued exactly one remote
`invoke_model` call carrying `body`; `Except.error` means the `ValueError`
was raised before any remote call.  Bag keys absent from the parameter
bag are read as Python `None` (`params.get(k)`), i.e. `JVal.null`. -/
def generate_image (norm : JVal → JVal) (task_type : String) (params : Params) :
    Except GenError JVal :=
  let num_images := Params.getD params "num_images" (.int 1)
  let quality := Params.getD params "quality" (.str "standard")
  let cfg_scale := Params.getD params "cfg_scale" (.rat (13 / 2))
  let seed := Params.getD params "seed" (.int 0)
  if task_type == "TEXT_IMAGE" then
    .ok (text_image_body norm
      (Params.getD params "text" (.str ""))
      (Params.getD params "negativeText" (.str ""))
      num_images
      (Params.getD params "width" .null)
      (Params.getD params "height" .null)
      quality cfg_scale seed
      (Params.getD params "conditionImage" .null)
      (Params.getD params "controlMode" (.str "CANNY_EDGE"))
      (Params.getD params "controlStrength" (.rat (7 / 10))))
  else if task_type == "INPAINTING" then
    .ok (inpainting_body norm
      (Params.getD params "image" (.str ""))
      (Params.getD params "text" (.str ""))
      (Params.getD params "negativeText" (.str ""))
      (Params.getD params "maskImage" .null)
      (Params.getD params "maskPrompt" .null)
      num_images quality cfg_scale seed)
  else if task_type == "OUTPAINTING" then
    .ok (outpainting_body norm
      (Params.getD params "image" (.str ""))
      (Params.getD params "text" (.str ""))
      (Params.getD params "maskImage" .null)
      (Params.getD params "maskPrompt" .null)
      (Params.getD params "outPaintingMode" (.str "DEFAULT"))
      num_images quality cfg_scale seed)
  else if task_type == "COLOR_GUIDED_GENERATION" then
    let colors0 := Params.getD params "colors" (.str "")
    let colors := match colors0 with
      | .str s => JVal.arr ((s.splitOn ",").map .str)
      | v => v
    .ok (color_guided_generation_body norm
      (Params.getD params "text" (.str ""))
      colors
      (Params.getD params "width" .null)
      (Params.getD params "height" .null)
      (Params.getD params "referenceImage" .null)
      num_images quality cfg_scale seed)
  else if task_type == "BACKGROUND_REMOVAL" then
    .ok (background_removal_body (Params.getD params "image" (.str "")))
  else if task_type == "IMAGE_VARIATION" then
    .ok (image_variation_body norm
      (Params.getD params "images" (.arr []))
      (Params.getD params "text" (.str ""))
      num_images quality cfg_scale seed)
  else
    .error (.unsupportedTask task_type)

/-- Number of remote `invoke_model` calls a `generate_image` run issues:
every builder branch invokes exactly once, the `ValueError` branch raises
before any invocation. -/
def remoteCalls : Except GenError JVal → Nat
  | .ok _ => 1
  | .error _ => 0

/-- The task kinds `generate_image` dispatches on, in source order. -/
def supportedTasks : List String :=
  ["TEXT_IMAGE", "INPAINTING", "OUTPAINTING", "COLOR_GUIDED_GENERATION",
   "BACKGROUND_REMOVAL", "IMAGE_VARIATION"]

/-! ### Synchronous invocation and result unwrapping -/

/-- `result.get('images', [])` — the unwrap performed by every image
builder except background removal on the parsed JSON response body. -/
def unwrap_images (resp : List (String × JVal)) : JVal :=
  ((resp.find? (fun kv => kv.1 == "images")).map (fun kv => kv.2)).getD (.arr [])

/-- `result.get('images', '')` — the unwrap performed by
`NovaGenerator.background_removal`. -/
def unwrap_images_bg (resp : List (String × JVal)) : JVal :=
  ((resp.find? (fun kv => kv.1 == "images")).map (fun kv => kv.2)).getD (.str "")

/-- The synchronous path around `invoke_model` + `json.loads` + the
`images` unwrap.  `transport` stands for the remote call followed by JSON
parsing of the response body; a transport or parse exception (`.error`) is
not caught anywhere in the source, so it propagates. -/
def invoke_sync (transport : JVal → Except String (List (String × JVal)))
    (body : JVal) : Except String JVal :=
  match transport body with
  | .error e => .error e
  | .ok resp => .ok (unwrap_images resp)

/-- Same synchronous path for `background_removal`, whose unwrap defaults
to the empty string instead of the empty list. -/
def invoke_sync_bg (transport : JVal → Except String (List (String × JVal)))
    (body : JVal) : Except String JVal :=
  match transport body with
  | .error e => .error e
  | .ok resp => .ok (unwrap_images_bg resp)

/-! ### Media normalizer -/

/-- The slice of a PIL image object that
`_ensure_valid_image_format` inspects: its mode string and whether
`img.info` records a transparency entry. -/
structure PILImage where
  mode : String
  infoTransparency : Bool

/-- The external operations `_ensure_valid_image_format` performs through
`base64`/`io`/`PIL`.  `decodeImage` is `base64.b64decode` + `Image.open`
(`none` models a raised exception); `flatten` is the paste onto a white
RGB background; `encodeJpeg` is `img.save(..., format='JPEG',
quality=95)` + re-encoding to base64 (`none` models a raised
exception). -/
structure ImageCodec where
  decodeImage : String → Option PILImage
  flatten : PILImage → PILImage
  encodeJpeg : PILImage → Option String

/-- `NovaGenerator._ensure_valid_image_format`: decode, flatten when the
mode carries transparency (`RGBA`, `LA`, or `P` with a transparency info
entry), re-encode as JPEG; the enclosing `try/except` returns the original
input string whenever any of those steps raises. -/
def ensure_valid_image_format (c : ImageCodec) (image_base64 : String) : String :=
  match c.decodeImage image_base64 with
  | none => image_base64
  | some img =>
    let img :=
      if img.mode == "RGBA" || img.mode == "LA"
          || (img.mode == "P" && img.infoTransparency) then
        c.flatten img
      else img
    match c.encodeJpeg img with
    | none => image_base64
    | some encoded => encoded

/-! ### Async video-job polling loop -/

/-- One scripted status read of `get_async_invoke`: the `status` field and
the optional `failureMessage` field of the job response. -/
structure JobRead where
  status : String
  failureMessage : Option String

/-- Outcome of running the `while True:` polling loop of
`NovaGenerator.generate_video` against a finite script of status reads.
`retrieved` means the `status == "Completed"` branch was taken and the
poller proceeded to the S3 artifact download; `jobFailed` means the
`status == "FAILED"` branch raised with the remote failure message;
`stillPolling` means the script ran out with the loop still going (no
terminal branch ever taken).  Each constructor carries the list of sleep
durations performed before it, in order. -/
inductive PollOutcome where
  | retrieved (sleeps : List Nat) : PollOutcome
  | jobFailed (message : String) (sleeps : List Nat) : PollOutcome
  | stillPolling (sleeps : List Nat) : PollOutcome

/-- The polling loop body, iterated over the script: read the status; if
`"Completed"`, retrieve; elif `"FAILED"` (the literal the source compares
against), raise with `job_response.get("failureMessage", "Unknown
error")`; otherwise `time.sleep(10)` and loop. -/
def pollLoop : List JobRead → List Nat → PollOutcome
  | [], sleeps => .stillPolling sleeps
  | r :: rest, sleeps =>
    if r.status == "Completed" then .retrieved sleeps
    else if r.status == "FAILED" then
      .jobFailed (r.failureMessage.getD "Unknown error") sleeps
    else pollLoop rest (sleeps ++ [10])

/-- The polling phase of `NovaGenerator.generate_video`, run against a
scripted sequence of status reads with no sleeps performed yet. -/
def generate_video_poll (script : List JobRead) : PollOutcome :=
  pollLoop script []

/-! ### Parameter-bag operation trace of the router -/

/-- A dict operation on the caller's parameter bag: a `params.get` read or
an item assignment `params[k] = v`. -/
inductive BagOp where
  | read (k : String) : BagOp
  | write (k : String) (v : JVal) : BagOp

/-- Whether a bag operation is a pure read. -/
def BagOp.isRead : BagOp → Bool
  | .read _ => true
  | .write _ _ => false

/-- Apply a trace of dict operations to a bag: reads leave it unchanged,
writes prepend a binding (shadowing any earlier one, as `Params.get`
returns the first match). -/
def applyOps : List BagOp → Params → Params
  | [], p => p
  | .read _ :: rest, p => applyOps rest p
  | .write k v :: rest, p => applyOps rest ((k, v) :: p)

/-- The sequence of dict operations `NovaGenerator.generate_image`
performs on `params`, read off the source in evaluation order: the four
shared-default reads at the top, then the branch-specific reads (keyword
arguments evaluate left to right; the comma-split of `colors` rebinds a
local variable and touches the bag only through its initial read).  The
unsupported branch raises after the shared reads. -/
def routerOps (task_type : String) : List BagOp :=
  [.read "num_images", .read "quality", .read "cfg_scale", .read "seed"] ++
  (if task_type == "TEXT_IMAGE" then
    [.read "text", .read "negativeText", .read "height", .read "width",
     .read "conditionImage", .read "controlMode", .read "controlStrength"]
  else if task_type == "INPAINTING" then
    [.read "image", .read "text", .read "negativeText",
     .read "maskImage", .read "maskPrompt"]
  else if task_type == "OUTPAINTING" then
    [.read "image", .read "text", .read "maskImage", .read "maskPrompt",
     .read "outPaintingMode"]
  else if task_type == "COLOR_GUIDED_GENERATION" then
    [.read "colors", .read "text", .read "width", .read "height",
     .read "referenceImage"]
  else if task_type == "BACKGROUND_REMOVAL" then
    [.read "image"]
  else if task_type == "IMAGE_VARIATION" then
    [.read "images", .read "text"]
  else [])

/-! ### Helper definitions and lemmas shared by the theorems -/

/-- The request body carried by a successful routing result (`JVal.null`
for the error branch, which builds no body). -/
def routedBody : Except GenError JVal → JVal
  | .ok b => b
  | .error _ => .null

/-- The empty string is falsy, so defaulted text parameters add no
optional key. -/
theorem truthy_empty_str : truthy (JVal.str "") = false := rfl

/-- Python `None` is falsy, so absent bag entries add no optional key. -/
theorem truthy_null : truthy JVal.null = false := rfl

/-- Whether a trace of dict operations consists of reads only. -/
def allReads (ops : List BagOp) : Bool := ops.all BagOp.isRead

/-- An image codec on which decoding always raises (models a malformed
base64 payload handed to the normalizer). -/
def failingCodec : ImageCodec where
  decodeImage := fun _ => none
  flatten := fun img => img
  encodeJpeg := fun _ => none

/-! ### C1: mask-combination validation on Inpainting/Outpainting -/

/-- C1 counterexample: the claim says supplying both `maskImage` and
`maskPrompt`, or neither, fails with a validation error before any remote
call.  On the code, all four inpainting/outpainting calls below build an
envelope and issue one remote call (`remoteCalls = 1`, never an error);
with both masks supplied the envelope silently carries only `maskImage`. -/
theorem mask_validation_cex :
    remoteCalls (generate_image (fun v => v) "INPAINTING"
      [("image", JVal.str "i0"), ("maskImage", JVal.str "mi0"),
       ("maskPrompt", JVal.str "mp0")]) = 1 ∧
    jlookup2 (routedBody (generate_image (fun v => v) "INPAINTING"
      [("image", JVal.str "i0"), ("maskImage", JVal.str "mi0"),
       ("maskPrompt", JVal.str "mp0")])) "inPaintingParams" "maskPrompt" = none ∧
    remoteCalls (generate_image (fun v => v) "INPAINTING"
      [("image", JVal.str "i0")]) = 1 ∧
    remoteCalls (generate_image (fun v => v) "OUTPAINTING"
      [("image", JVal.str "i0"), ("maskImage", JVal.str "mi0"),
       ("maskPrompt", JVal.str "mp0")]) = 1 ∧
    remoteCalls (generate_image (fun v => v) "OUTPAINTING"
      [("image", JVal.str "i0")]) = 1 :=
  ⟨rfl, rfl, rfl, rfl, rfl⟩

/-- C1 amended: the Inpainting/Outpainting builders perform no mask
validation and never fail.  Supplying exactly one of the two mask fields
puts exactly that field in the envelope (the mask image passes through the
normalizer first); supplying both, or neither, also succeeds, and in every
case exactly one remote call is issued. -/
theorem mask_validation_amended (norm : JVal → JVal) (img mi mp : JVal)
    (hmi : truthy mi = true) (hmp : truthy mp = true) :
    (jlookup2 (routedBody (generate_image norm "INPAINTING"
        [("image", img), ("maskImage", mi)])) "inPaintingParams" "maskImage"
        = some (norm mi) ∧
     jlookup2 (routedBody (generate_image norm "INPAINTING"
        [("image", img), ("maskImage", mi)])) "inPaintingParams" "maskPrompt"
        = none ∧
     remoteCalls (generate_image norm "INPAINTING"
        [("image", img), ("maskImage", mi)]) = 1) ∧
    (jlookup2 (routedBody (generate_image norm "INPAINTING"
        [("image", img), ("maskPrompt", mp)])) "inPaintingParams" "maskPrompt"
        = some mp ∧
     jlookup2 (routedBody (generate_image norm "INPAINTING"
        [("image", img), ("maskPrompt", mp)])) "inPaintingParams" "maskImage"
        = none ∧
     remoteCalls (generate_image norm "INPAINTING"
        [("image", img), ("maskPrompt", mp)]) = 1) ∧
    (jlookup2 (routedBody (generate_image norm "OUTPAINTING"
        [("image", img), ("maskImage", mi)])) "outPaintingParams" "maskImage"
        = some (norm mi) ∧
     jlookup2 (routedBody (generate_image norm "OUTPAINTING"
        [("image", img), ("maskImage", mi)])) "outPaintingParams" "maskPrompt"
        = none ∧
     remoteCalls (generate_image norm "OUTPAINTING"
        [("image", img), ("maskImage", mi)]) = 1) ∧
    (jlookup2 (routedBody (generate_image norm "OUTPAINTING"
        [("image", img), ("maskPrompt", mp)])) "outPaintingParams" "maskPrompt"
        = some mp ∧
     jlookup2 (routedBody (generate_image norm "OUTPAINTING"
        [("image", img), ("maskPrompt", mp)])) "outPaintingParams" "maskImage"
        = none ∧
     remoteCalls (generate_image norm "OUTPAINTING"
        [("image", img), ("maskPrompt", mp)]) = 1) ∧
    remoteCalls (generate_image norm "INPAINTING"
      [("image", img), ("maskImage", mi), ("maskPrompt", mp)]) = 1 ∧
    remoteCalls (generate_image norm "INPAINTING" [("image", img)]) = 1 ∧
    remoteCalls (generate_image norm "OUTPAINTING"
      [("image", img), ("maskImage", mi), ("maskPrompt", mp)]) = 1 ∧
    remoteCalls (generate_image norm "OUTPAINTING" [("image", img)]) = 1 := by
  refine ⟨⟨?_, ?_, rfl⟩, ⟨?_, ?_, rfl⟩, ⟨?_, ?_, rfl⟩, ⟨?_, ?_, rfl⟩,
    rfl, rfl, rfl, rfl⟩ <;>
  simp [generate_image, inpainting_body, outpainting_body, Params.getD,
    Params.get, routedBody, jlookup2, jlookup, truthy_empty_str, truthy_null,
    hmi, hmp]

/-- C1 amended, witnessed at concrete inputs. -/
theorem mask_validation_amended_witness :
    jlookup2 (routedBody (generate_image (fun v => v) "INPAINTING"
        [("image", JVal.str "b0"), ("maskImage", JVal.str "m1")]))
      "inPaintingParams" "maskImage" = some (JVal.str "m1") :=
  (mask_validation_amended (fun v => v) (JVal.str "b0") (JVal.str "m1")
    (JVal.str "p1") rfl rfl).1.1

/-! ### C2: TextToImage defaults through the router -/

/-- C2 counterexample: the claim says a bag supplying only the text yields
an envelope with width 1024 and height 1024.  On the code, the router
passes the absent bag entries through as Python None, which overrides the
builder's own keyword defaults, so the envelope carries null width and
height. -/
theorem text_image_defaults_cex :
    jlookup2 (routedBody (generate_image (fun v => v) "TEXT_IMAGE"
        [("text", JVal.str "a red cube")])) "imageGenerationConfig" "width"
      = some JVal.null ∧
    jlookup2 (routedBody (generate_image (fun v => v) "TEXT_IMAGE"
        [("text", JVal.str "a red cube")])) "imageGenerationConfig" "height"
      = some JVal.null ∧
    some JVal.null ≠ some (JVal.int 1024) := by
  refine ⟨rfl, rfl, ?_⟩
  simp

/-- C2 amended: for a TextToImage bag supplying only the text, the built
envelope has null width and null height (the router reads the absent keys
as None and passes them explicitly, bypassing the builder's 1280 by 720
keyword defaults), numberOfImages 1, the supplied text, and no
negativeText key. -/
theorem text_image_defaults_amended (norm : JVal → JVal) (t : String) :
    jlookup2 (routedBody (generate_image norm "TEXT_IMAGE"
        [("text", JVal.str t)])) "imageGenerationConfig" "width"
      = some JVal.null ∧
    jlookup2 (routedBody (generate_image norm "TEXT_IMAGE"
        [("text", JVal.str t)])) "imageGenerationConfig" "height"
      = some JVal.null ∧
    jlookup2 (routedBody (generate_image norm "TEXT_IMAGE"
        [("text", JVal.str t)])) "imageGenerationConfig" "numberOfImages"
      = some (JVal.int 1) ∧
    jlookup2 (routedBody (generate_image norm "TEXT_IMAGE"
        [("text", JVal.str t)])) "textToImageParams" "text"
      = some (JVal.str t) ∧
    jlookup2 (routedBody (generate_image norm "TEXT_IMAGE"
        [("text", JVal.str t)])) "textToImageParams" "negativeText" = none ∧
    remoteCalls (generate_image norm "TEXT_IMAGE" [("text", JVal.str t)]) = 1 :=
  ⟨rfl, rfl, rfl, rfl, rfl, rfl⟩

/-! ### C3: poller behaviour on a Failed status read -/

/-- C3: the spec's terminal failure status literal is `Failed`, but the
loop in `generate_video` compares against `FAILED`.  A status read
returning `Failed` therefore matches neither terminal branch: the poller
sleeps and keeps polling (here, exhausts the script after one sleep)
instead of failing immediately, and retrieval is indeed never attempted.
Only the all-caps literal, which the remote status enumeration never
produces, reaches the failure branch with the remote message. -/
theorem poller_failed_literal_mismatch :
    generate_video_poll [⟨"Failed", some "remote failure"⟩]
      = .stillPolling [10] ∧
    generate_video_poll [⟨"FAILED", some "remote failure"⟩]
      = .jobFailed "remote failure" [] :=
  ⟨rfl, rfl⟩

/-! ### C4: unsupported task kinds -/

/-- C4: for every task kind outside the supported enumeration, the router
raises the unsupported-task error and issues no remote call. -/
theorem unsupported_task_no_remote_call (task_type : String)
    (norm : JVal → JVal) (params : Params) (h : task_type ∉ supportedTasks) :
    generate_image norm task_type params
      = .error (.unsupportedTask task_type) ∧
    remoteCalls (generate_image norm task_type params) = 0 := by
  simp [supportedTasks] at h
  constructor <;> simp [generate_image, remoteCalls, h]

/-- C4 witnessed at the task kind UNKNOWN with an empty bag. -/
theorem unsupported_task_no_remote_call_witness :
    generate_image (fun v => v) "UNKNOWN" []
      = .error (.unsupportedTask "UNKNOWN") ∧
    remoteCalls (generate_image (fun v => v) "UNKNOWN" []) = 0 :=
  unsupported_task_no_remote_call "UNKNOWN" (fun v => v) [] (by decide)

/-! ### C5: poller sleep count on the scripted success sequence -/

/-- C5: on the scripted status reads Submitted, Submitted, Completed, the
poller sleeps exactly twice, ten time units each, and then proceeds to
artifact retrieval. -/
theorem poller_sleeps_twice_then_retrieves :
    generate_video_poll
      [⟨"Submitted", none⟩, ⟨"Submitted", none⟩, ⟨"Completed", none⟩]
      = .retrieved [10, 10] :=
  rfl

/-! ### C6: media normalizer fail-soft policy -/

/-- C6: whenever decoding the incoming base64 image raises, the normalizer
returns the original input string unchanged; being a total function of the
codec and the input, it raises nothing to the caller. -/
theorem normalizer_decode_failure_passthrough (c : ImageCodec) (s : String)
    (h : c.decodeImage s = none) :
    ensure_valid_image_format c s = s := by
  unfold ensure_valid_image_format
  rw [h]

/-- C6 witnessed on a codec that rejects every payload. -/
theorem normalizer_decode_failure_passthrough_witness :
    ensure_valid_image_format failingCodec "not-an-image" = "not-an-image" :=
  normalizer_decode_failure_passthrough failingCodec "not-an-image" rfl

/-! ### C7: background removal envelope -/

/-- C7: for every BackgroundRemoval routing, with any normalizer and any
parameter bag, the built envelope has no imageGenerationConfig key and
embeds the bag's image value untouched — the result does not depend on
the normalizer at all, which never runs on this path. -/
theorem background_removal_envelope (norm : JVal → JVal) (params : Params) :
    generate_image norm "BACKGROUND_REMOVAL" params
      = .ok (background_removal_body (Params.getD params "image" (JVal.str ""))) ∧
    jlookup (background_removal_body (Params.getD params "image" (JVal.str "")))
      "imageGenerationConfig" = none ∧
    jlookup2 (background_removal_body (Params.getD params "image" (JVal.str "")))
      "backgroundRemovalParams" "image"
      = some (Params.getD params "image" (JVal.str "")) :=
  ⟨rfl, rfl, rfl⟩

/-! ### C8: synchronous result unwrapping -/

/-- C8 counterexample: the claim says a response envelope lacking the
images field is surfaced as an invocation error rather than an empty
result.  On the code, a TEXT_IMAGE request built with numberOfImages 1
whose response is the empty JSON object yields a successful empty list
(and background removal yields a successful empty string) — no error is
raised and the result does not match numberOfImages. -/
theorem sync_missing_images_cex :
    jlookup2 (routedBody (generate_image (fun v => v) "TEXT_IMAGE"
        [("text", JVal.str "a cat")])) "imageGenerationConfig" "numberOfImages"
      = some (JVal.int 1) ∧
    invoke_sync (fun _ => .ok []) (routedBody (generate_image (fun v => v)
        "TEXT_IMAGE" [("text", JVal.str "a cat")])) = .ok (JVal.arr []) ∧
    invoke_sync_bg (fun _ => .ok [])
      (background_removal_body (JVal.str "x0")) = .ok (JVal.str "") :=
  ⟨rfl, rfl, rfl⟩

/-- C8 amended: the synchronous path never checks the result against
numberOfImages or for emptiness.  A transport or JSON-decode failure does
propagate to the caller unchanged (it is not swallowed); on success the
caller receives exactly the response's images field, defaulting to the
empty list — or, on the background-removal path, the empty string — when
the field is absent. -/
theorem sync_unwrap_amended
    (transport : JVal → Except String (List (String × JVal))) (body : JVal) :
    (∀ e, transport body = .error e →
      invoke_sync transport body = .error e ∧
      invoke_sync_bg transport body = .error e) ∧
    (∀ resp, transport body = .ok resp →
      resp.find? (fun kv => kv.1 == "images") = none →
      invoke_sync transport body = .ok (JVal.arr []) ∧
      invoke_sync_bg transport body = .ok (JVal.str "")) ∧
    (∀ resp v, transport body = .ok resp →
      resp.find? (fun kv => kv.1 == "images") = some ("images", v) →
      invoke_sync transport body = .ok v ∧
      invoke_sync_bg transport body = .ok v) := by
  refine ⟨?_, ?_, ?_⟩
  · intro e he
    constructor <;> simp [invoke_sync, invoke_sync_bg, he]
  · intro resp hok hf
    constructor <;>
      simp [invoke_sync, invoke_sync_bg, unwrap_images, unwrap_images_bg, hok, hf]
  · intro resp v hok hf
    constructor <;>
      simp [invoke_sync, invoke_sync_bg, unwrap_images, unwrap_images_bg, hok, hf]

/-- C8 amended, witnessed on a transport that answers with one image blob
and on a transport that fails. -/
theorem sync_unwrap_amended_witness :
    invoke_sync (fun _ => .ok [("images", JVal.arr [JVal.str "b1"])])
      (JVal.str "req") = .ok (JVal.arr [JVal.str "b1"]) ∧
    invoke_sync (fun _ => .error "connection reset") (JVal.str "req")
      = .error "connection reset" :=
  ⟨((sync_unwrap_amended (fun _ => .ok [("images", JVal.arr [JVal.str "b1"])])
      (JVal.str "req")).2.2 [("images", JVal.arr [JVal.str "b1"])]
      (JVal.arr [JVal.str "b1"]) rfl rfl).1,
   ((sync_unwrap_amended (fun _ => .error "connection reset")
      (JVal.str "req")).1 "connection reset" rfl).1⟩

/-! ### C9: implicit mask precedence and pass-through -/

/-- C9: when both mask fields are supplied truthy, the built
inpainting/outpainting envelope carries only maskImage (normalized) and no
maskPrompt key; when neither is supplied, it carries neither key; in both
situations the request is still sent — exactly one remote call. -/
theorem mask_image_precedence (norm : JVal → JVal) (img mi mp : JVal)
    (hmi : truthy mi = true) (hmp : truthy mp = true) :
    (jlookup2 (routedBody (generate_image norm "INPAINTING"
        [("image", img), ("maskImage", mi), ("maskPrompt", mp)]))
        "inPaintingParams" "maskImage" = some (norm mi) ∧
     jlookup2 (routedBody (generate_image norm "INPAINTING"
        [("image", img), ("maskImage", mi), ("maskPrompt", mp)]))
        "inPaintingParams" "maskPrompt" = none ∧
     remoteCalls (generate_image norm "INPAINTING"
        [("image", img), ("maskImage", mi), ("maskPrompt", mp)]) = 1) ∧
    (jlookup2 (routedBody (generate_image norm "INPAINTING" [("image", img)]))
        "inPaintingParams" "maskImage" = none ∧
     jlookup2 (routedBody (generate_image norm "INPAINTING" [("image", img)]))
        "inPaintingParams" "maskPrompt" = none ∧
     remoteCalls (generate_image norm "INPAINTING" [("image", img)]) = 1) ∧
    (jlookup2 (routedBody (generate_image norm "OUTPAINTING"
        [("image", img), ("maskImage", mi), ("maskPrompt", mp)]))
        "outPaintingParams" "maskImage" = some (norm mi) ∧
     jlookup2 (routedBody (generate_image norm "OUTPAINTING"
        [("image", img), ("maskImage", mi), ("maskPrompt", mp)]))
        "outPaintingParams" "maskPrompt" = none ∧
     remoteCalls (generate_image norm "OUTPAINTING"
        [("image", img), ("maskImage", mi), ("maskPrompt", mp)]) = 1) ∧
    (jlookup2 (routedBody (generate_image norm "OUTPAINTING" [("image", img)]))
        "outPaintingParams" "maskImage" = none ∧
     jlookup2 (routedBody (generate_image norm "OUTPAINTING" [("image", img)]))
        "outPaintingParams" "maskPrompt" = none ∧
     remoteCalls (generate_image norm "OUTPAINTING" [("image", img)]) = 1) := by
  refine ⟨⟨?_, ?_, rfl⟩, ⟨?_, ?_, rfl⟩, ⟨?_, ?_, rfl⟩, ⟨?_, ?_, rfl⟩⟩ <;>
  simp [generate_image, inpainting_body, outpainting_body, Params.getD,
    Params.get, routedBody, jlookup2, jlookup, truthy_empty_str, truthy_null,
    hmi, hmp]

/-- C9 witnessed at concrete inputs. -/
theorem mask_image_precedence_witness :
    jlookup2 (routedBody (generate_image (fun v => v) "INPAINTING"
        [("image", JVal.str "b2"), ("maskImage", JVal.str "m2"),
         ("maskPrompt", JVal.str "p2")]))
      "inPaintingParams" "maskImage" = some (JVal.str "m2") :=
  (mask_image_precedence (fun v => v) (JVal.str "b2") (JVal.str "m2")
    (JVal.str "p2") rfl rfl).1.1

/-! ### C10: the router never mutates the parameter bag -/

/-- C10: the dict-operation trace the router performs on the caller's
parameter bag consists of reads only, for every task kind, and applying
that trace to any bag leaves it unchanged. -/
theorem router_reads_only_bag_unchanged (task_type : String) (params : Params) :
    allReads (routerOps task_type) = true ∧
    applyOps (routerOps task_type) params = params := by
  unfold routerOps allReads
  constructor
  · (repeat' split) ; all_goals rfl
  · (repeat' split) ; all_goals rfl

end NovaCanvas
